import Mathlib

/-!
Shallow embedding of the Azure Remote Rendering HoloLens sample
(NativeCpp/HoloLens-OpenXr/samples/BasicXrApp and NativeCpp/HoloLens),
together with theorems settling the specification claims about it.

The embedding follows the C++ source:
  - StatusDisplay.{h,cpp}: the status-overlay line list and its operations
    (SetLines, UpdateLineText, AddLine, HasLine, UpdateLineInternal).
  - OpenXrProgram.cpp: the InitializeSystem retry loop, the ProcessEvents
    session-state machine, the Run outer loop with PrepareSessionRestart,
    and the remote-rendering connection state machine (InitARR, UpdateARR,
    OnConnectionStatusChanged, SetNewState, SetNewSession, UpdateStatusText).
  - HolographicAppMain.cpp mirrors the remote-rendering state machine of
    OpenXrProgram.cpp; where the two differ (the REST poll delay) the
    difference is noted at the relevant definition.

DirectWrite text layouts are opaque COM objects created from a text and a
format; the embedding stamps each created layout with a fresh counter value
so that "the cached layout was regenerated" is observable.  Wall-clock
seconds and line-height multipliers (C++ double/float) are modelled as
rationals; no arithmetic beyond comparison and subtraction is performed on
them in the modelled code.
-/

namespace StatusDisplay

/-- StatusDisplay.h: enum TextFormat { Small, Large, LargeBold }. -/
inductive TextFormat : Type
  | Small
  | Large
  | LargeBold
deriving DecidableEq

/-- StatusDisplay.h: enum TextColor { White, Yellow, Red, Green }. -/
inductive TextColor : Type
  | White
  | Yellow
  | Red
  | Green
deriving DecidableEq

/-- StatusDisplay.h: struct Line, with the C++ field initializers as
Lean default values (format = Large, color = White, multiplier = 1,
alignBottom = false). -/
structure Line : Type where
  text : String := ""
  format : TextFormat := .Large
  color : TextColor := .White
  lineHeightMultiplier : ℚ := 1
  alignBottom : Bool := false
deriving DecidableEq

/-- A DirectWrite IDWriteTextLayout created by CreateTextLayout: an opaque
object determined by the text and format it was created from, stamped with
a fresh identifier so that distinct creations are distinguishable. -/
structure TextLayout : Type where
  stamp : Nat
  sourceText : String
  sourceFormat : TextFormat
deriving DecidableEq

/-- StatusDisplay.h: struct RuntimeLine.  The layout field is none for a
default-constructed RuntimeLine (nullptr); metrics holds the result of
GetMetrics on the layout, which is determined by the layout itself. -/
structure RuntimeLine : Type where
  layout : Option TextLayout := none
  metrics : Option TextLayout := none
  text : String := ""
  format : TextFormat := .Large
  color : TextColor := .White
  lineHeightMultiplier : ℚ := 1
  alignBottom : Bool := false
deriving DecidableEq

/-- A default-constructed RuntimeLine, as produced by std::vector resize. -/
def defaultRuntimeLine : RuntimeLine := {}

/-- StatusDisplay.cpp, UpdateLineInternal: regenerate the layout and its
metrics when the format or the text changed, otherwise keep them; always
overwrite color, lineHeightMultiplier and alignBottom.  The counter is the
fresh-stamp supply for CreateTextLayout; it is threaded through and
incremented exactly when a layout is created. -/
def UpdateLineInternal (ctr : Nat) (runtimeLine : RuntimeLine) (line : Line) :
    RuntimeLine × Nat :=
  if line.format ≠ runtimeLine.format ∨ line.text ≠ runtimeLine.text then
    let lay : TextLayout := ⟨ctr, line.text, line.format⟩
    ({ layout := some lay
       metrics := some lay
       text := line.text
       format := line.format
       color := line.color
       lineHeightMultiplier := line.lineHeightMultiplier
       alignBottom := line.alignBottom }, ctr + 1)
  else
    ({ runtimeLine with
       color := line.color
       lineHeightMultiplier := line.lineHeightMultiplier
       alignBottom := line.alignBottom }, ctr)

/-- The Line stored in a RuntimeLine (the non-cache fields). -/
def lineOfRuntime (rt : RuntimeLine) : Line :=
  { text := rt.text
    format := rt.format
    color := rt.color
    lineHeightMultiplier := rt.lineHeightMultiplier
    alignBottom := rt.alignBottom }

/-- StatusDisplay.cpp, SetLines loop body: walk the new lines in order; for
each one first check the assertion (alignBottom is only allowed on the last
line), then update the corresponding stored RuntimeLine.  The stored vector
was resized to the new length first, so position i reuses the old
RuntimeLine at i when one exists and a default-constructed one otherwise;
none models the assertion firing. -/
def setLinesGo (ctr : Nat) (olds : List RuntimeLine) (lines : List Line) :
    Option (List RuntimeLine × Nat) :=
  match lines with
  | [] => some ([], ctr)
  | l :: ls =>
    if l.alignBottom = true ∧ ls ≠ [] then
      none
    else
      let p := UpdateLineInternal ctr (olds.headD defaultRuntimeLine) l
      match setLinesGo p.2 olds.tail ls with
      | none => none
      | some (rest, ctr2) => some (p.1 :: rest, ctr2)

/-- StatusDisplay.cpp, SetLines: resize the stored vector to the new length
and update every entry in order, asserting that only the last line may use
alignBottom = true. -/
def SetLines (ctr : Nat) (stored : List RuntimeLine) (lines : List Line) :
    Option (List RuntimeLine × Nat) :=
  setLinesGo ctr stored lines

/-- StatusDisplay.cpp, AddLine: append a default-constructed RuntimeLine
(resize to size+1), update it from the given line, and return the index of
the new line together with the new vector and counter. -/
def AddLine (ctr : Nat) (stored : List RuntimeLine) (line : Line) :
    Nat × List RuntimeLine × Nat :=
  let newIndex := stored.length
  let p := UpdateLineInternal ctr defaultRuntimeLine line
  (newIndex, stored ++ [p.1], p.2)

/-- StatusDisplay.cpp, HasLine: index < m_lines.size(). -/
def HasLine (stored : List RuntimeLine) (index : Nat) : Bool :=
  index < stored.length

/-- StatusDisplay.cpp, UpdateLineText: assert the index is in bounds, then
rebuild a Line from the stored RuntimeLine with the new text — the C++
aggregate initializer lists text, format, color and lineHeightMultiplier
only, so alignBottom takes its struct default false — and apply
UpdateLineInternal to the addressed entry. -/
def UpdateLineText (ctr : Nat) (stored : List RuntimeLine) (index : Nat)
    (text : String) : Option (List RuntimeLine × Nat) :=
  if h : index < stored.length then
    let rt := stored.get ⟨index, h⟩
    let line : Line :=
      { text := text
        format := rt.format
        color := rt.color
        lineHeightMultiplier := rt.lineHeightMultiplier }
    let p := UpdateLineInternal ctr rt line
    some (stored.set index p.1, p.2)
  else
    none

/-- UpdateLineInternal stores exactly the given line in the non-cache
fields of the resulting RuntimeLine. -/
theorem lineOfRuntime_updateLineInternal (ctr : Nat) (rt : RuntimeLine) (line : Line) :
    lineOfRuntime (UpdateLineInternal ctr rt line).1 = line := by
  unfold UpdateLineInternal
  split
  · cases line
    rfl
  · next h =>
    rw [not_or, not_not, not_not] at h
    cases line
    simp only [lineOfRuntime] at *
    simp_all

/-- Unfolding equation for setLinesGo on a nonempty line list. -/
theorem setLinesGo_cons (ctr : Nat) (olds : List RuntimeLine) (l : Line) (ls : List Line) :
    setLinesGo ctr olds (l :: ls) =
      if l.alignBottom = true ∧ ls ≠ [] then none
      else
        match setLinesGo (UpdateLineInternal ctr (olds.headD defaultRuntimeLine) l).2
            olds.tail ls with
        | none => none
        | some (rest, ctr2) =>
          some ((UpdateLineInternal ctr (olds.headD defaultRuntimeLine) l).1 :: rest, ctr2) :=
  rfl

/-- setLinesGo fails exactly when a line other than the last one has
alignBottom = true. -/
theorem setLinesGo_eq_none_iff (lines : List Line) : ∀ (ctr : Nat) (olds : List RuntimeLine),
    (setLinesGo ctr olds lines = none ↔ ∃ l ∈ lines.dropLast, l.alignBottom = true) := by
  induction lines with
  | nil => intro ctr olds; simp [setLinesGo]
  | cons l ls ih =>
    intro ctr olds
    rw [setLinesGo_cons]
    cases ls with
    | nil =>
      rw [if_neg (by simp)]
      cases hrec : setLinesGo (UpdateLineInternal ctr (olds.headD defaultRuntimeLine) l).2
          olds.tail [] with
      | none => simp [setLinesGo] at hrec
      | some r => cases r; simp
    | cons l2 ls2 =>
      by_cases hab : l.alignBottom = true
      · rw [if_pos (by simp [hab])]
        simp [List.dropLast_cons₂, hab]
      · rw [if_neg (by simp [hab])]
        have hne : (∃ x ∈ (l :: l2 :: ls2).dropLast, x.alignBottom = true)
            ↔ (∃ x ∈ (l2 :: ls2).dropLast, x.alignBottom = true) := by
          simp [List.dropLast_cons₂, hab]
        rw [hne]
        rw [← ih (UpdateLineInternal ctr (olds.headD defaultRuntimeLine) l).2 olds.tail]
        cases hrec : setLinesGo (UpdateLineInternal ctr (olds.headD defaultRuntimeLine) l).2
            olds.tail (l2 :: ls2) with
        | none => simp
        | some r => cases r; simp

/-- When setLinesGo succeeds, the resulting stored lines are exactly the
given lines, in order. -/
theorem setLinesGo_map (lines : List Line) : ∀ (ctr : Nat) (olds : List RuntimeLine)
    (res : List RuntimeLine × Nat),
    setLinesGo ctr olds lines = some res → res.1.map lineOfRuntime = lines := by
  induction lines with
  | nil =>
    intro ctr olds res h
    simp only [setLinesGo, Option.some.injEq] at h
    rw [← h]
    rfl
  | cons l ls ih =>
    intro ctr olds res h
    rw [setLinesGo_cons] at h
    split at h
    · exact absurd h (by simp)
    · cases hrec : setLinesGo (UpdateLineInternal ctr (olds.headD defaultRuntimeLine) l).2
          olds.tail ls with
      | none => rw [hrec] at h; exact absurd h (by simp)
      | some r =>
        rw [hrec] at h
        cases r with
        | mk rest ctr2 =>
          simp only [Option.some.injEq] at h
          rw [← h]
          simp [lineOfRuntime_updateLineInternal, ih _ _ _ hrec]

/-- C2: SetLines fails its assertion exactly when some line with
alignBottom = true sits at a position other than the last; when it
succeeds, the stored line list is replaced by exactly the given lines in
order. -/
theorem c2_setLines_spec (ctr : Nat) (stored : List RuntimeLine) (lines : List Line) :
    (SetLines ctr stored lines = none ↔ ∃ l ∈ lines.dropLast, l.alignBottom = true)
    ∧ ∀ res, SetLines ctr stored lines = some res → res.1.map lineOfRuntime = lines :=
  ⟨setLinesGo_eq_none_iff lines ctr stored,
   fun res h => setLinesGo_map lines ctr stored res h⟩

/-- Input lines for the C2 witness: alignBottom only on the last line. -/
def c2Lines : List Line :=
  [{ text := "A" },
   { text := "B", format := .Small, color := .Red, alignBottom := true }]

/-- Expected stored state for the C2 witness. -/
def c2Out : List RuntimeLine × Nat :=
  ([{ layout := some ⟨0, "A", .Large⟩, metrics := some ⟨0, "A", .Large⟩, text := "A" },
    { layout := some ⟨1, "B", .Small⟩, metrics := some ⟨1, "B", .Small⟩, text := "B",
      format := .Small, color := .Red, alignBottom := true }], 2)

/-- Witness for C2: on a concrete two-line input whose only bottom-aligned
line is the last, SetLines succeeds and stores exactly those lines. -/
theorem c2_setLines_witness :
    SetLines 0 [] c2Lines = some c2Out ∧ c2Out.1.map lineOfRuntime = c2Lines :=
  ⟨by decide, (c2_setLines_spec 0 [] c2Lines).2 c2Out (by decide)⟩

/-- C3: UpdateLineInternal always overwrites color, lineHeightMultiplier
and alignBottom from the new line; it regenerates the cached layout and
metrics (consuming a fresh layout stamp) exactly when the new line's text
or format differs from the stored one, and otherwise leaves the cached
layout and metrics untouched. -/
theorem c3_updateLineInternal_cache (ctr : Nat) (rt : RuntimeLine) (line : Line) :
    (UpdateLineInternal ctr rt line).1.color = line.color
    ∧ (UpdateLineInternal ctr rt line).1.lineHeightMultiplier = line.lineHeightMultiplier
    ∧ (UpdateLineInternal ctr rt line).1.alignBottom = line.alignBottom
    ∧ (if line.format = rt.format ∧ line.text = rt.text then
        (UpdateLineInternal ctr rt line).1.layout = rt.layout
        ∧ (UpdateLineInternal ctr rt line).1.metrics = rt.metrics
        ∧ (UpdateLineInternal ctr rt line).2 = ctr
      else
        (UpdateLineInternal ctr rt line).1.layout = some ⟨ctr, line.text, line.format⟩
        ∧ (UpdateLineInternal ctr rt line).1.metrics = some ⟨ctr, line.text, line.format⟩
        ∧ (UpdateLineInternal ctr rt line).2 = ctr + 1) := by
  by_cases h : line.format = rt.format ∧ line.text = rt.text
  · simp [UpdateLineInternal, h, h.1, h.2]
  · have h2 : ¬line.format = rt.format ∨ ¬line.text = rt.text := not_and_or.mp h
    simp only [UpdateLineInternal, ne_eq, if_pos h2]
    simp [if_neg h]

/-- C9: AddLine returns the previous line count as the new index, grows
the list by exactly one, keeps all previously stored lines, and the new
index then passes HasLine; HasLine holds exactly for indices below the
current count. -/
theorem c9_addLine_spec (ctr : Nat) (stored : List RuntimeLine) (line : Line) :
    (AddLine ctr stored line).1 = stored.length
    ∧ (AddLine ctr stored line).2.1.length = stored.length + 1
    ∧ (AddLine ctr stored line).2.1.take stored.length = stored
    ∧ HasLine (AddLine ctr stored line).2.1 (AddLine ctr stored line).1 = true
    ∧ (∀ i : Nat, HasLine stored i = true ↔ i < stored.length) := by
  refine ⟨rfl, by simp [AddLine], ?_, by simp [AddLine, HasLine], ?_⟩
  · simp only [AddLine]
    exact List.take_left stored _
  · intro i
    simp [HasLine]

/-- C10: for a valid index, UpdateLineText replaces only the addressed
line's text, keeps its format, color and lineHeightMultiplier, always
resets alignBottom to false (the rebuilt Line omits it, so the struct
default applies), and leaves every other line unchanged. -/
theorem c10_updateLineText_spec (ctr : Nat) (stored : List RuntimeLine) (index : Nat)
    (text : String) (h : index < stored.length) :
    ∃ rt2 ctr2,
      UpdateLineText ctr stored index text = some (stored.set index rt2, ctr2)
      ∧ rt2.text = text
      ∧ rt2.format = (stored.getD index defaultRuntimeLine).format
      ∧ rt2.color = (stored.getD index defaultRuntimeLine).color
      ∧ rt2.lineHeightMultiplier = (stored.getD index defaultRuntimeLine).lineHeightMultiplier
      ∧ rt2.alignBottom = false
      ∧ ∀ j : Nat, j ≠ index → (stored.set index rt2).get? j = stored.get? j := by
  have hgetD : stored.getD index defaultRuntimeLine = stored.get ⟨index, h⟩ := by
    unfold List.getD
    rw [List.get?_eq_get h]
    rfl
  have hmk := lineOfRuntime_updateLineInternal ctr (stored.get ⟨index, h⟩)
    { text := text
      format := (stored.get ⟨index, h⟩).format
      color := (stored.get ⟨index, h⟩).color
      lineHeightMultiplier := (stored.get ⟨index, h⟩).lineHeightMultiplier }
  refine ⟨(UpdateLineInternal ctr (stored.get ⟨index, h⟩)
      { text := text
        format := (stored.get ⟨index, h⟩).format
        color := (stored.get ⟨index, h⟩).color
        lineHeightMultiplier := (stored.get ⟨index, h⟩).lineHeightMultiplier }).1,
    (UpdateLineInternal ctr (stored.get ⟨index, h⟩)
      { text := text
        format := (stored.get ⟨index, h⟩).format
        color := (stored.get ⟨index, h⟩).color
        lineHeightMultiplier := (stored.get ⟨index, h⟩).lineHeightMultiplier }).2,
    ?_, ?_, ?_, ?_, ?_, ?_, ?_⟩
  · simp only [UpdateLineText]
    rw [dif_pos h]
  · exact congrArg Line.text hmk
  · rw [hgetD]; exact congrArg Line.format hmk
  · rw [hgetD]; exact congrArg Line.color hmk
  · rw [hgetD]; exact congrArg Line.lineHeightMultiplier hmk
  · exact congrArg Line.alignBottom hmk
  · intro j hj
    simp only [List.get?_eq_getElem?]
    exact List.getElem?_set_ne (Ne.symm hj)

/-- Stored state for the C10 witness: one line with alignBottom = true. -/
def c10Stored : List RuntimeLine :=
  [{ text := "X", color := .Yellow, alignBottom := true }]

/-- Witness for C10: the theorem applied at index 0 of a concrete one-line
list, with the bound discharged. -/
theorem c10_updateLineText_witness :
    0 < c10Stored.length
    ∧ ∃ rt2 ctr2,
        UpdateLineText 0 c10Stored 0 "Y" = some (c10Stored.set 0 rt2, ctr2)
        ∧ rt2.text = "Y"
        ∧ rt2.format = (c10Stored.getD 0 defaultRuntimeLine).format
        ∧ rt2.color = (c10Stored.getD 0 defaultRuntimeLine).color
        ∧ rt2.lineHeightMultiplier = (c10Stored.getD 0 defaultRuntimeLine).lineHeightMultiplier
        ∧ rt2.alignBottom = false
        ∧ ∀ j : Nat, j ≠ 0 → (c10Stored.set 0 rt2).get? j = c10Stored.get? j :=
  ⟨by decide, c10_updateLineText_spec 0 c10Stored 0 "Y" (by decide)⟩

end StatusDisplay

namespace BasicXrApp

/-- Outcome of one xrGetSystem call as discriminated by InitializeSystem:
SUCCEEDED(result), XR_ERROR_FORM_FACTOR_UNAVAILABLE, or any other failure
code. -/
inductive XrGetSystemOutcome : Type
  | success
  | formFactorUnavailable
  | otherFailure
deriving DecidableEq

/-- How the InitializeSystem retry loop ends, counting the one-second
sleeps it performed before ending. -/
inductive SystemLoopResult : Type
  | proceeded (sleeps : Nat)
  | fatal (sleeps : Nat)
deriving DecidableEq

/-- OpenXrProgram.cpp, InitializeSystem retry loop over xrGetSystem: a
success result breaks out of the loop; XR_ERROR_FORM_FACTOR_UNAVAILABLE
sleeps one second and retries; any other failure hits CHECK_XRRESULT,
which is fatal.  The argument is the sequence of xrGetSystem results the
runtime produces; none means the trace ended with the loop still
retrying. -/
def InitializeSystem : List XrGetSystemOutcome → Option SystemLoopResult
  | [] => none
  | r :: rs =>
    match r with
    | .success => some (.proceeded 0)
    | .otherFailure => some (.fatal 0)
    | .formFactorUnavailable =>
      match InitializeSystem rs with
      | some (.proceeded k) => some (.proceeded (k + 1))
      | some (.fatal k) => some (.fatal (k + 1))
      | none => none

/-- C4: in the InitializeSystem retry loop, only FORM_FACTOR_UNAVAILABLE
causes a retry (one one-second sleep each); the first success exits the
loop and proceeds, the first other failure is fatal and never retried,
and a trace of only FORM_FACTOR_UNAVAILABLE results leaves the loop still
running. -/
theorem c4_initSystem_retry (k : Nat) (rest : List XrGetSystemOutcome) :
    InitializeSystem
        (List.replicate k .formFactorUnavailable ++ .success :: rest)
      = some (.proceeded k)
    ∧ InitializeSystem
        (List.replicate k .formFactorUnavailable ++ .otherFailure :: rest)
      = some (.fatal k)
    ∧ InitializeSystem (List.replicate k .formFactorUnavailable) = none := by
  induction k with
  | zero => exact ⟨rfl, rfl, rfl⟩
  | succ n ih =>
    refine ⟨?_, ?_, ?_⟩ <;>
      simp [List.replicate_succ, InitializeSystem, ih.1, ih.2.1, ih.2.2]

/-- XrSessionState values as matched by ProcessEvents. -/
inductive XrSessionState : Type
  | unknown
  | idle
  | ready
  | synchronized
  | visible
  | focused
  | stopping
  | lossPending
  | exiting
deriving DecidableEq

/-- The OpenXR events ProcessEvents discriminates on; all remaining event
types fall into the default case. -/
inductive XrEvent : Type
  | instanceLossPending
  | sessionStateChanged (s : XrSessionState)
  | referenceSpaceChangePending
  | interactionProfileChanged
  | unrecognized
deriving DecidableEq

/-- The state ProcessEvents reads and writes: the running flag and the
stored session state, the two output flags, the begin/end call counts
(instrumenting xrBeginSession/xrEndSession), and whether the early return
on instance loss was taken. -/
structure EventLoopState : Type where
  sessionRunning : Bool
  sessionState : XrSessionState
  exitRenderLoop : Bool
  requestRestart : Bool
  beginSessionCalls : Nat
  endSessionCalls : Nat
  halted : Bool
deriving DecidableEq

/-- OpenXrProgram.cpp, ProcessEvents switch body for a single polled
event: instance loss sets the outputs and returns; a session state change
stores the new state and then begins/ends the session or sets the outputs
for READY/STOPPING/EXITING/LOSS_PENDING; every other event (including the
other session states) only logs. -/
def processEvent (st : EventLoopState) (e : XrEvent) : EventLoopState :=
  match e with
  | .instanceLossPending =>
    { st with exitRenderLoop := true, requestRestart := false, halted := true }
  | .sessionStateChanged s =>
    let st1 := { st with sessionState := s }
    match s with
    | .ready =>
      { st1 with beginSessionCalls := st1.beginSessionCalls + 1, sessionRunning := true }
    | .stopping =>
      { st1 with sessionRunning := false, endSessionCalls := st1.endSessionCalls + 1 }
    | .exiting => { st1 with exitRenderLoop := true, requestRestart := false }
    | .lossPending => { st1 with exitRenderLoop := true, requestRestart := true }
    | _ => st1
  | .referenceSpaceChangePending => st
  | .interactionProfileChanged => st
  | .unrecognized => st

/-- OpenXrProgram.cpp, ProcessEvents: both output flags start false, then
the polled events are processed in order until the queue runs out or the
instance-loss early return fires. -/
def ProcessEvents (events : List XrEvent) (st : EventLoopState) : EventLoopState :=
  events.foldl (fun s e => if s.halted then s else processEvent s e)
    { st with exitRenderLoop := false, requestRestart := false, halted := false }

/-- C5: per-event effects of ProcessEvents.  READY begins the session and
sets the running flag; STOPPING clears the running flag and ends the
session; EXITING sets exit without restart; LOSS_PENDING sets exit with
restart; instance loss sets exit without restart and stops polling; every
other event changes neither the outputs, nor the running flag, nor the
call counts (a state change to any other session state only stores that
state). -/
theorem c5_processEvent_effects (st : EventLoopState) :
    processEvent st (.sessionStateChanged .ready)
      = { st with sessionState := .ready,
                  beginSessionCalls := st.beginSessionCalls + 1, sessionRunning := true }
    ∧ processEvent st (.sessionStateChanged .stopping)
      = { st with sessionState := .stopping, sessionRunning := false,
                  endSessionCalls := st.endSessionCalls + 1 }
    ∧ processEvent st (.sessionStateChanged .exiting)
      = { st with sessionState := .exiting, exitRenderLoop := true, requestRestart := false }
    ∧ processEvent st (.sessionStateChanged .lossPending)
      = { st with sessionState := .lossPending, exitRenderLoop := true, requestRestart := true }
    ∧ processEvent st .instanceLossPending
      = { st with exitRenderLoop := true, requestRestart := false, halted := true }
    ∧ processEvent st (.sessionStateChanged .unknown) = { st with sessionState := .unknown }
    ∧ processEvent st (.sessionStateChanged .idle) = { st with sessionState := .idle }
    ∧ processEvent st (.sessionStateChanged .synchronized)
      = { st with sessionState := .synchronized }
    ∧ processEvent st (.sessionStateChanged .visible) = { st with sessionState := .visible }
    ∧ processEvent st (.sessionStateChanged .focused) = { st with sessionState := .focused }
    ∧ processEvent st .referenceSpaceChangePending = st
    ∧ processEvent st .interactionProfileChanged = st
    ∧ processEvent st .unrecognized = st :=
  ⟨rfl, rfl, rfl, rfl, rfl, rfl, rfl, rfl, rfl, rfl, rfl, rfl, rfl⟩

/-- The render resources owned per session, including both swapchains
(OpenXrProgram.cpp struct RenderResources; handles abstracted). -/
structure RenderResources : Type where
  colorSwapchain : Nat
  depthSwapchain : Nat
deriving DecidableEq

/-- The fields of ImplementOpenXrProgram touched or deliberately spared by
PrepareSessionRestart (handles abstracted as numbers). -/
structure ProgramState : Type where
  instanceHandle : Nat
  actionSetHandle : Nat
  placeActionHandle : Nat
  poseActionHandle : Nat
  vibrateActionHandle : Nat
  exitActionHandle : Nat
  suggestedBindings : List (Nat × Nat)
  holograms : List Nat
  mainCubeIndex : Option Nat
  spinningCubeIndex : Option Nat
  renderResources : Option RenderResources
  sessionHandle : Option Nat
  systemId : Nat
deriving DecidableEq

/-- openxr.h: XR_NULL_SYSTEM_ID is 0. -/
def XR_NULL_SYSTEM_ID : Nat := 0

/-- OpenXrProgram.cpp, PrepareSessionRestart: clear the cube indices and
the hologram list, destroy the render resources, reset the session handle
and null the system id; nothing else is touched. -/
def PrepareSessionRestart (st : ProgramState) : ProgramState :=
  { st with
    mainCubeIndex := none
    spinningCubeIndex := none
    holograms := []
    renderResources := none
    sessionHandle := none
    systemId := XR_NULL_SYSTEM_ID }

/-- The calls the Run outer loop makes, in order. -/
inductive RunCall : Type
  | initSystemCall
  | initSessionCall
  | renderLoopCall
  | restartCall
deriving DecidableEq

/-- OpenXrProgram.cpp, Run: the do-while outer loop as the sequence of
calls it makes, driven by the requestRestart value each inner render loop
exits with (one list entry per iteration). -/
def runTrace : List Bool → List RunCall
  | [] => []
  | r :: rest =>
    .initSystemCall :: .initSessionCall :: .renderLoopCall ::
      (if r then .restartCall :: runTrace rest else [])

/-- C6: PrepareSessionRestart resets exactly the session-scoped state —
holograms emptied, cube indices cleared, render resources (with both
swapchains) destroyed, session handle reset, system id nulled — while the
instance, the action set, the actions and the suggested bindings are
untouched; and whenever an iteration of Run exits with restart requested,
the trace continues with PrepareSessionRestart followed immediately by
InitializeSystem and InitializeSession of the next iteration. -/
theorem c6_restart_resets_session_scope (st : ProgramState) (r : Bool) (rest : List Bool) :
    (PrepareSessionRestart st).holograms = []
    ∧ (PrepareSessionRestart st).mainCubeIndex = none
    ∧ (PrepareSessionRestart st).spinningCubeIndex = none
    ∧ (PrepareSessionRestart st).renderResources = none
    ∧ (PrepareSessionRestart st).sessionHandle = none
    ∧ (PrepareSessionRestart st).systemId = XR_NULL_SYSTEM_ID
    ∧ (PrepareSessionRestart st).instanceHandle = st.instanceHandle
    ∧ (PrepareSessionRestart st).actionSetHandle = st.actionSetHandle
    ∧ (PrepareSessionRestart st).placeActionHandle = st.placeActionHandle
    ∧ (PrepareSessionRestart st).poseActionHandle = st.poseActionHandle
    ∧ (PrepareSessionRestart st).vibrateActionHandle = st.vibrateActionHandle
    ∧ (PrepareSessionRestart st).exitActionHandle = st.exitActionHandle
    ∧ (PrepareSessionRestart st).suggestedBindings = st.suggestedBindings
    ∧ runTrace (true :: r :: rest)
      = .initSystemCall :: .initSessionCall :: .renderLoopCall :: .restartCall ::
        .initSystemCall :: .initSessionCall :: .renderLoopCall ::
        (if r then .restartCall :: runTrace rest else []) :=
  ⟨rfl, rfl, rfl, rfl, rfl, rfl, rfl, rfl, rfl, rfl, rfl, rfl, rfl, rfl⟩

/-- OpenXrProgram.h (and HolographicAppMain.h): enum class
AppConnectionStatus. -/
inductive AppConnectionStatus : Type
  | Disconnected
  | CreatingSession
  | StartingSession
  | Connecting
  | Connected
  | ConnectionFailed
deriving DecidableEq

/-- RR::RenderingSessionStatus values discriminated by the
session-properties callback. -/
inductive RenderingSessionStatus : Type
  | Ready
  | Error
  | Stopped
  | Expired
deriving DecidableEq

/-- RR::ConnectionStatus values discriminated by
OnConnectionStatusChanged. -/
inductive ConnectionStatus : Type
  | Connecting
  | Connected
  | Disconnected
deriving DecidableEq

/-- Outcome of the CreateNewRenderingSessionAsync /
OpenRenderingSessionAsync completion (the SessionHandler lambda in
InitARR): RR status OK with a successful context, OK with a failed
context carrying its error message, or a failed RR status. -/
inductive SessionCreationOutcome : Type
  | ok
  | ctxFailed (errorMessage : String)
  | callFailed
deriving DecidableEq

/-- Outcome of the GetPropertiesAsync completion: RR status OK with a
successful context carrying the session status, OK with a failed context
carrying its error message, or a failed RR status. -/
inductive PropOutcome : Type
  | ok (s : RenderingSessionStatus)
  | ctxFailed (errorMessage : String)
  | callFailed
deriving DecidableEq

/-- The remote-rendering connection state of ImplementOpenXrProgram
(OpenXrProgram.cpp private fields), plus two instrumentation counters:
queriesInFlight counts GetPropertiesAsync requests issued and not yet
completed, and connectCalls counts ConnectAsync invocations. -/
structure RRState : Type where
  currentStatus : AppConnectionStatus
  statusMsg : String
  hasSession : Bool
  sessionStarted : Bool
  queryInProgress : Bool
  isConnected : Bool
  modelLoadTriggered : Bool
  modelLoadFinished : Bool
  timeAtLastRESTCall : ℚ
  sessionStartingTime : ℚ
  delayBetweenRESTCalls : ℚ
  connectCalls : Nat
  queriesInFlight : Nat
deriving DecidableEq

/-- OpenXrProgram.cpp, SetNewState: unconditionally overwrite the current
status and the message (nullptr becomes the empty string). -/
def setNewState (st : RRState) (s : AppConnectionStatus) (msg : Option String) : RRState :=
  { st with currentStatus := s, statusMsg := msg.getD "" }

/-- OpenXrProgram.cpp, SetNewSession: set the status to StartingSession,
record the current time as both the session-starting time and the time of
the last REST call, and store the new (non-null) rendering session. -/
def SetNewSession (st : RRState) (now : ℚ) : RRState :=
  let st1 := setNewState st .StartingSession none
  { st1 with sessionStartingTime := now, timeAtLastRESTCall := now, hasSession := true }

/-- The asynchronous remote-rendering happenings the connection state
machine reacts to: one UpdateARR tick at a given time, the
session-creation completion, the session-properties completion carrying
the minimum retry delay reported by the service, and a connection status change with its
RR result (success flag and its ResultToString text). -/
inductive RREvent : Type
  | updateTick (now : ℚ)
  | sessionResult (o : SessionCreationOutcome) (now : ℚ)
  | propertiesCompletion (o : PropOutcome) (retryDelay : ℚ)
  | connectionStatusChanged (s : ConnectionStatus) (success : Bool) (asString : String)
deriving DecidableEq

/-- One step of the connection state machine, translated from
OpenXrProgram.cpp (UpdateARR for the tick, InitARR's SessionHandler, the
GetPropertiesAsync completion lambda, and OnConnectionStatusChanged; the
HolographicAppMain.cpp versions are identical except that its poll delay
is the constant 10 rather than the stored delayBetweenRESTCalls).  A
properties completion with no query in flight never occurs (exactly one
completion fires per issued request) and is modelled as a no-op. -/
def stepRR (st : RRState) (e : RREvent) : RRState :=
  match e with
  | .updateTick now =>
    if st.hasSession = true then
      let st1 :=
        if st.sessionStarted = false ∧ st.queryInProgress = false
            ∧ st.delayBetweenRESTCalls < now - st.timeAtLastRESTCall then
          { st with
            timeAtLastRESTCall := now
            queryInProgress := true
            queriesInFlight := st.queriesInFlight + 1 }
        else st
      if st1.isConnected = true ∧ st1.modelLoadTriggered = false then
        { st1 with modelLoadTriggered := true }
      else st1
    else st
  | .sessionResult o now =>
    match o with
    | .ok => SetNewSession st now
    | .ctxFailed msg => setNewState st .ConnectionFailed (some msg)
    | .callFailed => setNewState st .ConnectionFailed (some "failed")
  | .propertiesCompletion o retryDelay =>
    if st.queryInProgress = true then
      let st1 :=
        match o with
        | .ok .Ready =>
          let st2 := setNewState { st with sessionStarted := true } .Connecting none
          { st2 with connectCalls := st2.connectCalls + 1 }
        | .ok .Error => setNewState st .ConnectionFailed (some "Session error")
        | .ok .Stopped => setNewState st .ConnectionFailed (some "Session stopped")
        | .ok .Expired => setNewState st .ConnectionFailed (some "Session expired")
        | .ctxFailed msg => setNewState st .ConnectionFailed (some msg)
        | .callFailed =>
          setNewState st .ConnectionFailed (some "Failed to retrieve session status")
      { st1 with
        delayBetweenRESTCalls := retryDelay
        queryInProgress := false
        queriesInFlight := st1.queriesInFlight - 1 }
    else st
  | .connectionStatusChanged s success asString =>
    match s with
    | .Connecting => setNewState st .Connecting (some asString)
    | .Connected =>
      let st1 :=
        if success = true then setNewState st .Connected (some asString)
        else setNewState st .ConnectionFailed (some asString)
      { st1 with modelLoadTriggered := false, modelLoadFinished := false,
                 isConnected := success }
    | .Disconnected =>
      let st1 :=
        if success = true then setNewState st .Disconnected (some asString)
        else setNewState st .ConnectionFailed (some asString)
      { st1 with modelLoadTriggered := false, modelLoadFinished := false,
                 isConnected := false }

/-- Run the connection state machine over a sequence of events. -/
def runRR (st : RRState) (events : List RREvent) : RRState :=
  events.foldl stepRR st

/-- The state right after InitARR: the constructor field initializers of
OpenXrProgram.cpp (status Disconnected, delay 10, everything false/zero),
then SetNewState(CreatingSession, nullptr) once the session request is
issued. -/
def initialRRState : RRState :=
  { currentStatus := .CreatingSession
    statusMsg := ""
    hasSession := false
    sessionStarted := false
    queryInProgress := false
    isConnected := false
    modelLoadTriggered := false
    modelLoadFinished := false
    timeAtLastRESTCall := 0
    sessionStartingTime := 0
    delayBetweenRESTCalls := 10
    connectCalls := 0
    queriesInFlight := 0 }

/-- OpenXrProgram.cpp, UpdateStatusText: the status lines added for the
current state.  none models the early return that disables the status
text when the model finished loading successfully; otherwise the
status-dependent lines are followed by the model-loading lines when a
load was triggered.  The elapsed seconds and progress percentage are the
already-truncated integers the C++ computes from the timer and the load
progress; modelLoadSuccess is m_modelLoadResult == RR::Result::Success
and modelLoadResultStr its ResultToString. -/
def updateStatusLines (status : AppConnectionStatus) (statusMsg : String)
    (elapsedSecs percentage : Int)
    (modelLoadTriggered modelLoadFinished modelLoadSuccess : Bool)
    (modelLoadResultStr : String) : Option (List StatusDisplay.Line) :=
  if modelLoadFinished = true ∧ modelLoadSuccess = true then
    none
  else
    some (
      (match status with
       | .CreatingSession =>
         [{ text := "Creating session...", format := .LargeBold, color := .White,
            lineHeightMultiplier := 1.2 }]
       | .StartingSession =>
         [{ text := "Starting session...", format := .LargeBold, color := .White,
            lineHeightMultiplier := 1.2 },
          { text := "...this may take a while. Elapsed time: "
              ++ toString elapsedSecs ++ "s",
            format := .Small, color := .White, lineHeightMultiplier := 1.2 }]
       | .Connecting =>
         [{ text := "Connecting...", format := .LargeBold, color := .White,
            lineHeightMultiplier := 1.2 }]
       | .Connected =>
         [{ text := "Connected", format := .LargeBold, color := .Green,
            lineHeightMultiplier := 1.2 }]
       | .ConnectionFailed =>
         [{ text := "Failed to connect", format := .LargeBold, color := .Red,
            lineHeightMultiplier := 1.2 },
          { text := "Error: " ++ statusMsg, format := .LargeBold, color := .Red,
            lineHeightMultiplier := 1.2 }]
       | .Disconnected =>
         [{ text := "Disconnected", format := .LargeBold, color := .Yellow,
            lineHeightMultiplier := 1.2 }])
      ++ (if modelLoadTriggered = true then
            if modelLoadFinished = true ∧ modelLoadSuccess = false then
              [{ text := "Failed to load model: " ++ modelLoadResultStr,
                 format := .LargeBold, color := .Red, lineHeightMultiplier := 1.2 }]
            else
              [{ text := "Loading model (" ++ toString percentage ++ "%)",
                 format := .LargeBold, color := .White, lineHeightMultiplier := 1.2 }]
          else []))

/-- The status a callback event writes via SetNewState, independent of
the previous state (none for an update tick, which never writes one). -/
def statusTarget : RREvent → Option AppConnectionStatus
  | .updateTick _ => none
  | .sessionResult .ok _ => some .StartingSession
  | .sessionResult (.ctxFailed _) _ => some .ConnectionFailed
  | .sessionResult .callFailed _ => some .ConnectionFailed
  | .propertiesCompletion (.ok .Ready) _ => some .Connecting
  | .propertiesCompletion _ _ => some .ConnectionFailed
  | .connectionStatusChanged .Connecting _ _ => some .Connecting
  | .connectionStatusChanged .Connected success _ =>
    some (if success = true then .Connected else .ConnectionFailed)
  | .connectionStatusChanged .Disconnected success _ =>
    some (if success = true then .Disconnected else .ConnectionFailed)

/-- The status after one step: the event's target status whenever the
event writes one (a properties completion writes only when a query is in
flight), and the old status otherwise. -/
def statusAfter (st : RRState) (e : RREvent) : AppConnectionStatus :=
  match e with
  | .propertiesCompletion _ _ =>
    if st.queryInProgress = true then (statusTarget e).getD st.currentStatus
    else st.currentStatus
  | _ => (statusTarget e).getD st.currentStatus

/-- A realistic event sequence: session created, properties polled once,
session ready, connection attempt fails, then the runtime reports a clean
disconnect. -/
def c1Trace : List RREvent :=
  [.sessionResult .ok 0, .updateTick 11, .propertiesCompletion (.ok .Ready) 10,
   .connectionStatusChanged .Connected false "Fail",
   .connectionStatusChanged .Disconnected true "Success"]

/-- C1 counterexample: after the failed connection attempt the status is
ConnectionFailed, yet the very next SetNewState made by
OnConnectionStatusChanged (a Disconnected callback with a success result)
moves it to Disconnected — ConnectionFailed is not absorbing. -/
theorem c1_counterexample :
    (runRR initialRRState (c1Trace.take 4)).currentStatus = .ConnectionFailed
    ∧ (runRR initialRRState c1Trace).currentStatus = .Disconnected := by
  constructor <;>
    norm_num [runRR, c1Trace, initialRRState, stepRR, SetNewSession, setNewState,
      List.foldl]

/-- C1 amended: SetNewState overwrites the status unconditionally, so
after every callback the status is a function of that callback alone
(statusAfter): session creation yields StartingSession or
ConnectionFailed, a properties completion with a query in flight yields
Connecting or ConnectionFailed, a connection callback yields Connecting,
Connected, Disconnected or ConnectionFailed.  ConnectionFailed is
reachable from every state (any failing callback) but not absorbing: from
any state, hence also from ConnectionFailed, a successful Disconnected
callback yields Disconnected. -/
theorem c1_status_transitions (st : RRState) (e : RREvent) :
    (stepRR st e).currentStatus = statusAfter st e
    ∧ (stepRR st (.connectionStatusChanged .Disconnected true "Success")).currentStatus
      = .Disconnected
    ∧ (stepRR st (.connectionStatusChanged .Connected false "Fail")).currentStatus
      = .ConnectionFailed := by
  refine ⟨?_, rfl, rfl⟩
  cases e with
  | updateTick now =>
    simp only [stepRR, statusAfter, statusTarget, Option.getD_none]
    split
    · split <;> split <;> rfl
    · rfl
  | sessionResult o now => cases o <;> rfl
  | propertiesCompletion o rd =>
    by_cases h : st.queryInProgress = true
    · cases o with
      | ok s =>
        cases s <;> simp [stepRR, statusAfter, statusTarget, setNewState, h]
      | ctxFailed m => simp [stepRR, statusAfter, statusTarget, setNewState, h]
      | callFailed => simp [stepRR, statusAfter, statusTarget, setNewState, h]
    · cases o with
      | ok s => cases s <;> simp [stepRR, statusAfter, h]
      | ctxFailed m => simp [stepRR, statusAfter, h]
      | callFailed => simp [stepRR, statusAfter, h]
  | connectionStatusChanged s success msg =>
    cases s <;> cases success <;> rfl

/-- An event sequence for C7: session created at time 0, a properties
request issued at time 11, completed with the service reporting a
2-second minimum retry delay, and another tick at time 14. -/
def c7Trace : List RREvent :=
  [.sessionResult .ok 0, .updateTick 11, .propertiesCompletion (.ok .Error) 2,
   .updateTick 14]

/-- C7 counterexample: the completion overwrote the poll delay with the
service-reported 2 seconds, so the tick at time 14 issues a new
GetPropertiesAsync request although only 3 seconds — less than the
claimed fixed 10-second delay — elapsed since the REST call recorded at
time 11. -/
theorem c7_counterexample :
    (runRR initialRRState (c7Trace.take 3)).queriesInFlight = 0
    ∧ (runRR initialRRState (c7Trace.take 3)).timeAtLastRESTCall = 11
    ∧ (runRR initialRRState c7Trace).queriesInFlight = 1
    ∧ (runRR initialRRState c7Trace).timeAtLastRESTCall = 14
    ∧ (14 : ℚ) - 11 < 10 := by
  refine ⟨?_, ?_, ?_, ?_, by norm_num⟩ <;>
    norm_num [runRR, c7Trace, initialRRState, stepRR, SetNewSession, setNewState,
      List.foldl]

/-- The in-flight request count always mirrors the query-in-progress
flag. -/
def inflightInvariant (st : RRState) : Prop :=
  st.queriesInFlight = if st.queryInProgress = true then 1 else 0

/-- Every step preserves the in-flight invariant: a request is only
issued when no query is in progress, and a completion clears the flag. -/
theorem stepRR_inflight {st : RRState} (h : inflightInvariant st) (e : RREvent) :
    inflightInvariant (stepRR st e) := by
  cases e with
  | updateTick now =>
    simp only [stepRR]
    split
    · split
      · next hc =>
        split <;> simp_all [inflightInvariant]
      · split <;> simp_all [inflightInvariant]
    · exact h
  | sessionResult o now =>
    cases o <;> simp_all [stepRR, SetNewSession, setNewState, inflightInvariant]
  | propertiesCompletion o rd =>
    by_cases hq : st.queryInProgress = true
    · cases o with
      | ok s => cases s <;> simp_all [stepRR, setNewState, inflightInvariant]
      | ctxFailed m => simp_all [stepRR, setNewState, inflightInvariant]
      | callFailed => simp_all [stepRR, setNewState, inflightInvariant]
    · simp_all [stepRR, inflightInvariant]
  | connectionStatusChanged s success msg =>
    cases s <;> cases success <;> simp_all [stepRR, setNewState, inflightInvariant]

/-- The in-flight invariant holds along every run from the initial
state. -/
theorem runRR_inflight (events : List RREvent) :
    inflightInvariant (runRR initialRRState events) := by
  suffices hall : ∀ st, inflightInvariant st → inflightInvariant (runRR st events) by
    exact hall initialRRState (by simp [initialRRState, inflightInvariant])
  induction events with
  | nil => intro st h; exact h
  | cons e es ih => intro st h; exact ih (stepRR st e) (stepRR_inflight h e)

/-- C7 amended: before the session has started, a tick issues a new
GetPropertiesAsync request exactly when no request is in flight and more
than the current delayBetweenRESTCalls elapsed since the time recorded at
the last REST call; that delay starts at 10 seconds but is overwritten
with the service-reported minimum retry delay by every properties
completion (only the WMR HolographicAppMain path keeps the constant 10);
issuing records the current time, and along every run at most one request
is in flight at a time. -/
theorem c7_polling_gate (st : RRState) (now rd : ℚ) (o : PropOutcome)
    (events : List RREvent) :
    ((stepRR st (.updateTick now)).queriesInFlight = st.queriesInFlight + 1
      ↔ st.hasSession = true ∧ st.sessionStarted = false ∧ st.queryInProgress = false
        ∧ st.delayBetweenRESTCalls < now - st.timeAtLastRESTCall)
    ∧ ((stepRR st (.updateTick now)).queriesInFlight = st.queriesInFlight + 1
        → (stepRR st (.updateTick now)).timeAtLastRESTCall = now)
    ∧ (stepRR st (.propertiesCompletion o rd)).delayBetweenRESTCalls
      = (if st.queryInProgress = true then rd else st.delayBetweenRESTCalls)
    ∧ initialRRState.delayBetweenRESTCalls = 10
    ∧ (runRR initialRRState events).queriesInFlight ≤ 1 := by
  refine ⟨?_, ?_, ?_, rfl, ?_⟩
  · simp only [stepRR]
    constructor
    · intro hq
      by_cases hs : st.hasSession = true
      · simp only [hs, if_true] at hq
        refine ⟨hs, ?_⟩
        by_cases hc : st.sessionStarted = false ∧ st.queryInProgress = false
            ∧ st.delayBetweenRESTCalls < now - st.timeAtLastRESTCall
        · exact hc
        · exfalso
          rw [if_neg hc] at hq
          split at hq <;> simp at hq
      · exfalso
        rw [if_neg hs] at hq
        simp at hq
    · rintro ⟨hs, hc⟩
      simp only [hs, if_true, if_pos hc]
      split <;> rfl
  · intro hq
    simp only [stepRR] at hq ⊢
    by_cases hs : st.hasSession = true
    · simp only [hs, if_true] at hq ⊢
      by_cases hc : st.sessionStarted = false ∧ st.queryInProgress = false
          ∧ st.delayBetweenRESTCalls < now - st.timeAtLastRESTCall
      · rw [if_pos hc] at hq ⊢
        split <;> rfl
      · exfalso
        rw [if_neg hc] at hq
        split at hq <;> simp at hq
    · exfalso
      rw [if_neg hs] at hq
      simp at hq
  · by_cases hq : st.queryInProgress = true
    · cases o with
      | ok s => cases s <;> simp [stepRR, setNewState, hq]
      | ctxFailed m => simp [stepRR, setNewState, hq]
      | callFailed => simp [stepRR, setNewState, hq]
    · cases o <;> simp_all [stepRR]
  · have h := runRR_inflight events
    unfold inflightInvariant at h
    rw [h]
    split <;> simp

/-- A state with a live session, ready to issue a properties request. -/
def c7WitState : RRState := stepRR initialRRState (.sessionResult .ok 0)

/-- Witness for C7: at the concrete state right after session creation, a
tick at time 11 issues a request and records time 11. -/
theorem c7_polling_gate_witness :
    (stepRR c7WitState (.updateTick 11)).queriesInFlight = c7WitState.queriesInFlight + 1
    ∧ (stepRR c7WitState (.updateTick 11)).timeAtLastRESTCall = 11 :=
  ⟨by norm_num [c7WitState, stepRR, initialRRState, SetNewSession, setNewState],
   (c7_polling_gate c7WitState 11 0 .callFailed []).2.1
     (by norm_num [c7WitState, stepRR, initialRRState, SetNewSession, setNewState])⟩

/-- An event sequence for C8: session created, properties polled, session
ready, then the SDK reports status Connecting with a non-success
result. -/
def c8Trace : List RREvent :=
  [.sessionResult .ok 0, .updateTick 11, .propertiesCompletion (.ok .Ready) 10,
   .connectionStatusChanged .Connecting false "Fail"]

/-- C8 counterexample: a connection callback with status Connecting and a
non-success result leaves the app in Connecting, not ConnectionFailed —
OnConnectionStatusChanged ignores the error for the Connecting status. -/
theorem c8_counterexample :
    (runRR initialRRState c8Trace).currentStatus = .Connecting
    ∧ (runRR initialRRState c8Trace).currentStatus ≠ .ConnectionFailed := by
  have h1 : (runRR initialRRState c8Trace).currentStatus = .Connecting := by
    norm_num [runRR, c8Trace, initialRRState, stepRR, SetNewSession, setNewState,
      List.foldl]
  refine ⟨h1, ?_⟩
  rw [h1]
  decide

/-- ConnectAsync is called at most once: a properties query is only
issued before the session started, and the Ready completion that calls
ConnectAsync also marks the session started. -/
def connectInvariant (st : RRState) : Prop :=
  (st.queryInProgress = true → st.sessionStarted = false)
  ∧ st.connectCalls = (if st.sessionStarted = true then 1 else 0)

/-- Every step preserves the connect invariant. -/
theorem stepRR_connect {st : RRState} (h : connectInvariant st) (e : RREvent) :
    connectInvariant (stepRR st e) := by
  obtain ⟨h1, h2⟩ := h
  cases e with
  | updateTick now =>
    simp only [stepRR]
    split
    · split
      · next hc =>
        split <;> exact ⟨fun _ => hc.1, h2⟩
      · split <;> exact ⟨h1, h2⟩
    · exact ⟨h1, h2⟩
  | sessionResult o now =>
    cases o <;> exact ⟨h1, h2⟩
  | propertiesCompletion o rd =>
    by_cases hq : st.queryInProgress = true
    · have hns := h1 hq
      cases o with
      | ok s =>
        cases s <;>
          simp_all [stepRR, setNewState, connectInvariant]
      | ctxFailed m => simp_all [stepRR, setNewState, connectInvariant]
      | callFailed => simp_all [stepRR, setNewState, connectInvariant]
    · simp only [stepRR, if_neg hq]
      exact ⟨h1, h2⟩
  | connectionStatusChanged s success msg =>
    cases s <;> cases success <;> exact ⟨h1, h2⟩

/-- The connect invariant holds along every run from the initial
state. -/
theorem runRR_connect (events : List RREvent) :
    connectInvariant (runRR initialRRState events) := by
  suffices hall : ∀ st, connectInvariant st → connectInvariant (runRR st events) by
    refine hall initialRRState ⟨fun h => rfl, rfl⟩
  induction events with
  | nil => intro st h; exact h
  | cons e es ih => intro st h; exact ih (stepRR st e) (stepRR_connect h e)

/-- C8 amended: every SDK-reported error except a Connecting-status
callback — failed session creation, a failed properties call or context,
an Error/Stopped/Expired session status, or a Connected/Disconnected
callback with a non-success result — moves the app to ConnectionFailed
with the error message stored (a Connecting callback stores the message
but sets Connecting even on a non-success result); in the
ConnectionFailed state the next UpdateStatusText renders the red lines
"Failed to connect" and "Error: " followed by the stored message; and no
code path initiates an automatic reconnect: along every run ConnectAsync
is invoked at most once. -/
theorem c8_error_surfacing (st : RRState) (m : String) (now rd : ℚ)
    (elapsedSecs percentage : Int) (mt ms : Bool) (mstr : String)
    (events : List RREvent) :
    ((stepRR st (.sessionResult (.ctxFailed m) now)).currentStatus = .ConnectionFailed
      ∧ (stepRR st (.sessionResult (.ctxFailed m) now)).statusMsg = m)
    ∧ ((stepRR st (.sessionResult .callFailed now)).currentStatus = .ConnectionFailed
      ∧ (stepRR st (.sessionResult .callFailed now)).statusMsg = "failed")
    ∧ ((stepRR { st with queryInProgress := true }
          (.propertiesCompletion (.ok .Error) rd)).currentStatus = .ConnectionFailed
      ∧ (stepRR { st with queryInProgress := true }
          (.propertiesCompletion (.ok .Error) rd)).statusMsg = "Session error")
    ∧ ((stepRR { st with queryInProgress := true }
          (.propertiesCompletion (.ok .Stopped) rd)).currentStatus = .ConnectionFailed
      ∧ (stepRR { st with queryInProgress := true }
          (.propertiesCompletion (.ok .Stopped) rd)).statusMsg = "Session stopped")
    ∧ ((stepRR { st with queryInProgress := true }
          (.propertiesCompletion (.ok .Expired) rd)).currentStatus = .ConnectionFailed
      ∧ (stepRR { st with queryInProgress := true }
          (.propertiesCompletion (.ok .Expired) rd)).statusMsg = "Session expired")
    ∧ ((stepRR { st with queryInProgress := true }
          (.propertiesCompletion (.ctxFailed m) rd)).currentStatus = .ConnectionFailed
      ∧ (stepRR { st with queryInProgress := true }
          (.propertiesCompletion (.ctxFailed m) rd)).statusMsg = m)
    ∧ ((stepRR { st with queryInProgress := true }
          (.propertiesCompletion .callFailed rd)).currentStatus = .ConnectionFailed
      ∧ (stepRR { st with queryInProgress := true }
          (.propertiesCompletion .callFailed rd)).statusMsg
        = "Failed to retrieve session status")
    ∧ ((stepRR st (.connectionStatusChanged .Connected false m)).currentStatus
        = .ConnectionFailed
      ∧ (stepRR st (.connectionStatusChanged .Connected false m)).statusMsg = m)
    ∧ ((stepRR st (.connectionStatusChanged .Disconnected false m)).currentStatus
        = .ConnectionFailed
      ∧ (stepRR st (.connectionStatusChanged .Disconnected false m)).statusMsg = m)
    ∧ ((stepRR st (.connectionStatusChanged .Connecting false m)).currentStatus
        = .Connecting
      ∧ (stepRR st (.connectionStatusChanged .Connecting false m)).statusMsg = m)
    ∧ updateStatusLines .ConnectionFailed m elapsedSecs percentage mt false ms mstr
      = some
          ([{ text := "Failed to connect", format := .LargeBold, color := .Red,
              lineHeightMultiplier := 1.2 },
            { text := "Error: " ++ m, format := .LargeBold, color := .Red,
              lineHeightMultiplier := 1.2 }]
            ++ (if mt = true then
                  [{ text := "Loading model (" ++ toString percentage ++ "%)",
                     format := .LargeBold, color := .White, lineHeightMultiplier := 1.2 }]
                else []))
    ∧ (runRR initialRRState events).connectCalls ≤ 1 := by
  refine ⟨⟨rfl, rfl⟩, ⟨rfl, rfl⟩, ⟨?_, ?_⟩, ⟨?_, ?_⟩, ⟨?_, ?_⟩, ⟨?_, ?_⟩, ⟨?_, ?_⟩,
    ⟨rfl, rfl⟩, ⟨rfl, rfl⟩, ⟨rfl, rfl⟩, ?_, ?_⟩
  all_goals try (simp [stepRR, setNewState])
  · cases mt <;> simp [updateStatusLines]
  · have h := (runRR_connect events).2
    rw [h]
    split <;> simp

end BasicXrApp
